import Mathlib

/-!
Verification of the DFU transfer core: the notification correlator
(`DfuNotificationQueue`, src/unnamed/part_000) and the object transfer
orchestrator (`DfuObjectWriter`, src/api/dfu/dfuObjectWriter.js).

The JavaScript source is embedded shallowly:
* mutation of the notification buffer becomes explicit state passing
  (functions return the remaining buffer);
* the poll/timeout race of `readNext` becomes a fuel-bounded poll loop,
  one fuel unit per 20 ms poll tick, `20000 / 20 = 1000` ticks in total
  (the deadline timer was registered first, so at the shared 20 s deadline
  the timeout wins the race);
* promise rejection becomes `Except`-style error results.

Collaborators that the repository keeps outside the covered core
(`dfuConstants.js`, `arrayUtil.splitArray`, `intArrayConv.arrayToInt`,
`DfuPacketWriter`) are modelled from the spec; each such definition carries a
doc comment saying so.
-/

set_option maxRecDepth 10000

deriving instance DecidableEq for Except

namespace Dfu

/-- A notification received from the transport: the originating characteristic
instance id and the byte payload. Mirrors the objects pushed by
`_onNotificationReceived` (src/unnamed/part_000), which carry `_instanceId`
and `value`. -/
structure Notification where
  instanceId : Nat
  value : List Nat
deriving DecidableEq

namespace ControlPointOpcode

/-- Modelled from the spec: the marker byte identifying a response
notification (`ControlPointOpcode.RESPONSE` of dfuConstants.js, which is not
under src/). -/
def RESPONSE : Nat := 96

/-- Modelled from the spec: the opcode of a checkpoint-class (CRC) response
(`ControlPointOpcode.CALCULATE_CRC` of dfuConstants.js, which is not under
src/). -/
def CALCULATE_CRC : Nat := 3

end ControlPointOpcode

namespace ResultCode

/-- Modelled from the spec: the success result code (`ResultCode.SUCCESS` of
dfuConstants.js, which is not under src/). -/
def SUCCESS : Nat := 1

end ResultCode

/-- The error kinds produced via `createError` in the two source files.
`commandError` and `unexpectedNotification` carry the byte the source
interpolates into the message (`Option` because indexing past the payload end
yields no byte); `invalidOffset` and `invalidCrc` carry the received and the
expected value. -/
inductive ErrorCode where
  | notificationTimeout
  | unexpectedNotification (got : Option Nat)
  | commandError (code : Option Nat)
  | aborted
  | invalidOffset (got expected : Nat)
  | invalidCrc (got expected : Nat)
deriving DecidableEq

/-- Outcome of `_parseNotification` on a single buffered notification:
`skip` embeds the `return null` paths (foreign channel, or first byte not the
response marker), `matched` the returned payload, `failed` a thrown error. -/
inductive ParseOutcome where
  | skip
  | matched (value : List Nat)
  | failed (e : ErrorCode)
deriving DecidableEq

/-- `_parseNotification(opCode, notification)` (src/unnamed/part_000):
a notification from another characteristic is skipped; with the response
marker in byte 0, byte 1 must equal the requested opcode (else
`UNEXPECTED_NOTIFICATION` is thrown) and byte 2 must be the success code
(else `COMMAND_ERROR` with that byte is thrown); a marker mismatch is
skipped. -/
def parseNotification (ccId opCode : Nat) (n : Notification) : ParseOutcome :=
  if n.instanceId ≠ ccId then
    .skip
  else if n.value[0]? = some ControlPointOpcode.RESPONSE then
    if n.value[1]? = some opCode then
      if n.value[2]? = some ResultCode.SUCCESS then
        .matched n.value
      else
        .failed (.commandError (n.value[2]?))
    else
      .failed (.unexpectedNotification (n.value[1]?))
  else
    .skip

/-- Outcome of `_findNotification`: a match together with the notifications
still buffered after it, an exhausted buffer (`undefined` in the source), or
a thrown error together with the notifications left unconsumed. -/
inductive FindOutcome where
  | found (value : List Nat) (rest : List Notification)
  | exhausted
  | failed (e : ErrorCode) (rest : List Notification)
deriving DecidableEq

/-- `_findNotification(opCode)` (src/unnamed/part_000): shift notifications
off the head of the buffer, skipping parse results that are `null`, until a
payload is returned or an error is thrown. -/
def findNotification (ccId opCode : Nat) : List Notification → FindOutcome
  | [] => .exhausted
  | n :: rest =>
    match parseNotification ccId opCode n with
    | .skip => findNotification ccId opCode rest
    | .matched v => .found v rest
    | .failed e => .failed e rest

/-- The hardcoded `timeout` of `readNext` (src/unnamed/part_000), in ms. -/
def timeoutMs : Nat := 20000

/-- The hardcoded `pollInterval` of `readNext` (src/unnamed/part_000), in ms. -/
def pollIntervalMs : Nat := 20

/-- Number of poll ticks before the 20 s deadline fires: polls happen at
0 ms, 20 ms, ..., 19980 ms; at 20000 ms the deadline timer (registered
first) wins the `Promise.race`. -/
def pollCount : Nat := timeoutMs / pollIntervalMs

/-- The poll loop of `_waitForNotification`: at tick `k` the buffer holds
`arrivals k` (a scan that exhausts the buffer leaves it empty, so the next
tick sees only what arrived meanwhile); when the fuel granted by the 20 s
deadline runs out, the race is lost to `NOTIFICATION_TIMEOUT`. -/
def pollLoop (ccId opCode : Nat) (arrivals : Nat → List Notification) :
    Nat → Nat → Except ErrorCode (List Nat × List Notification)
  | _, 0 => .error .notificationTimeout
  | k, fuel + 1 =>
    match findNotification ccId opCode (arrivals k) with
    | .found v rest => .ok (v, rest)
    | .failed e _ => .error e
    | .exhausted => pollLoop ccId opCode arrivals (k + 1) fuel

/-- Buffer contents per poll tick: tick 0 sees the notifications already
buffered when `readNext` is called, tick `k+1` sees the batch that arrived
during interval `k`. -/
def withBuf (buf : List Notification) (arrivals : Nat → List Notification)
    (k : Nat) : List Notification :=
  if k = 0 then buf else arrivals k

/-- `readNext(opCode)` (src/unnamed/part_000): race the poll loop against the
20 s deadline. `buf` is the buffer at call time, `arrivals k` the batch
arriving before tick `k`. On success the payload is returned together with
the notifications still buffered. -/
def readNext (ccId opCode : Nat) (buf : List Notification)
    (arrivals : Nat → List Notification) :
    Except ErrorCode (List Nat × List Notification) :=
  pollLoop ccId opCode (withBuf buf arrivals) 0 pollCount

/-- The locally computed cumulative transfer state: offset and running CRC32.
This is both the progress object returned by the packet writer at checkpoint
boundaries and the object `writeObject` resolves with. -/
structure ProgressInfo where
  offset : Nat
  crc32 : Nat
deriving DecidableEq

/-- Modelled from the spec: the running state of the packet-level writer
collaborator (`DfuPacketWriter`, not under src/): cumulative offset, running
CRC32, the PRN cadence, and the count of packets since the last checkpoint. -/
structure PacketWriter where
  offset : Nat
  crc32 : Nat
  prn : Nat
  prnCount : Nat
deriving DecidableEq

/-- Modelled from the spec: `writePacket(bytes)` of the packet-level writer
collaborator (not under src/). It advances the cumulative offset by the
packet length, folds the packet into the running CRC32 (the CRC step itself
is a further external collaborator, passed as `crcUpd`), and returns a
`ProgressInfo` checkpoint exactly when the PRN cadence counter triggers
(never when `prn = 0`, which disables checkpointing). -/
def PacketWriter.writePacket (crcUpd : Nat → List Nat → Nat)
    (w : PacketWriter) (packet : List Nat) : PacketWriter × Option ProgressInfo :=
  let offset := w.offset + packet.length
  let crc := crcUpd w.crc32 packet
  let cnt := w.prnCount + 1
  if w.prn ≠ 0 ∧ cnt = w.prn then
    ({ w with offset := offset, crc32 := crc, prnCount := 0 }, some ⟨offset, crc⟩)
  else
    ({ w with offset := offset, crc32 := crc, prnCount := cnt }, none)

/-- Fuel-driven worker for `splitArray`; the fuel is the length of the list,
which bounds the number of nonempty chunks, so it never runs out. -/
def splitArrayGo : Nat → List Nat → Nat → List (List Nat)
  | _, [], _ => []
  | _, _ :: _, 0 => []
  | 0, _ :: _, _ + 1 => []
  | f + 1, d :: ds, s + 1 =>
    (d :: ds).take (s + 1) :: splitArrayGo f ((d :: ds).drop (s + 1)) (s + 1)

/-- Modelled from the spec: `splitArray(array, chunkSize)` of
`arrayUtil.js` (not under src/), the byte-level chunking utility: it splits
the array into consecutive chunks of `chunkSize` bytes, the last chunk
possibly shorter, `ceil(length / chunkSize)` chunks in total. A chunk size
of zero yields no chunks. -/
def splitArray (data : List Nat) (size : Nat) : List (List Nat) :=
  splitArrayGo data.length data size

/-- Modelled from the spec: `arrayToInt` of `intArrayConv.js` (not under
src/), decoding a byte array as a single integer, least significant byte
first (the protocol-defined 32-bit little-endian layout). -/
def arrayToInt : List Nat → Nat
  | [] => 0
  | b :: rest => b + 256 * arrayToInt rest

/-- `_validateOffset(notification, offset)` (src/api/dfu/dfuObjectWriter.js):
decode bytes `[3..7)` of the response payload and compare with the locally
expected offset; throw `INVALID_OFFSET` on mismatch. -/
def validateOffset (value : List Nat) (offset : Nat) : Except ErrorCode Unit :=
  if arrayToInt ((value.drop 3).take 4) ≠ offset then
    .error (.invalidOffset (arrayToInt ((value.drop 3).take 4)) offset)
  else
    .ok ()

/-- `_validateCrc32(notification, crc32)` (src/api/dfu/dfuObjectWriter.js):
decode bytes `[7..11)` of the response payload and compare with the locally
expected CRC32; throw `INVALID_CRC` on mismatch. -/
def validateCrc32 (value : List Nat) (crc32 : Nat) : Except ErrorCode Unit :=
  if arrayToInt ((value.drop 7).take 4) ≠ crc32 then
    .error (.invalidCrc (arrayToInt ((value.drop 7).take 4)) crc32)
  else
    .ok ()

/-- `_validateProgress(progressInfo)` (src/api/dfu/dfuObjectWriter.js): read
the next `CALCULATE_CRC` response from the notification queue, then validate
the offset and then the CRC32. On success the queue's remaining buffer is
returned. -/
def validateProgress (ccId : Nat) (prog : ProgressInfo)
    (buf : List Notification) (arrivals : Nat → List Notification) :
    Except ErrorCode (List Notification) :=
  match readNext ccId ControlPointOpcode.CALCULATE_CRC buf arrivals with
  | .error e => .error e
  | .ok (value, rest) =>
    match validateOffset value prog.offset with
    | .error e => .error e
    | .ok _ =>
      match validateCrc32 value prog.crc32 with
      | .error e => .error e
      | .ok _ => .ok rest

/-- The state threaded through the packet loop: the packet writer's running
state, the notification queue's buffer, the index of the next validation
(numbering the `readNext` calls), and the log of packets handed to the
packet writer so far, in order. -/
structure LoopState where
  writer : PacketWriter
  buf : List Notification
  valIdx : Nat
  written : List (List Nat)
deriving DecidableEq

/-- Result of the packet loop: resolution with the final state, or rejection
with an error and the state at the point of failure. -/
inductive WriteResult where
  | ok (s : LoopState)
  | err (e : ErrorCode) (s : LoopState)
deriving DecidableEq

/-- The state carried by a `WriteResult`, whichever way it ended. -/
def WriteResult.state : WriteResult → LoopState
  | .ok s => s
  | .err _ s => s

/-- Whether a `WriteResult` is a resolution. -/
def WriteResult.isOk : WriteResult → Bool
  | .ok _ => true
  | .err _ _ => false

/-- `_writePackets` / `_writePacket` (src/api/dfu/dfuObjectWriter.js): the
promise chain built by `reduce` runs one packet at a time, strictly in
order. Each iteration first checks the abort flag (`_checkAbortState`), then
hands the packet to the packet writer, then — only if the writer reported a
checkpoint — validates it before the next packet is dispatched. `arrivals`
supplies, per validation index, the notification batches seen by that
validation's `readNext` polls. -/
def writePacketsLoop (ccId : Nat) (crcUpd : Nat → List Nat → Nat)
    (ab : Bool) (arrivals : Nat → Nat → List Notification) :
    List (List Nat) → LoopState → WriteResult
  | [], s => .ok s
  | p :: ps, s =>
    if ab then
      .err .aborted s
    else
      match s.writer.writePacket crcUpd p with
      | (w, none) =>
        writePacketsLoop ccId crcUpd ab arrivals ps
          { s with writer := w, written := s.written ++ [p] }
      | (w, some prog) =>
        match validateProgress ccId prog s.buf (arrivals s.valIdx) with
        | .error e => .err e { s with writer := w, written := s.written ++ [p] }
        | .ok rest =>
          writePacketsLoop ccId crcUpd ab arrivals ps
            { writer := w, buf := rest, valIdx := s.valIdx + 1,
              written := s.written ++ [p] }

/-- The `DfuObjectWriter` fields that persist across `writeObject` calls:
`_mtuSize` (default 20), `_prn` (unset encodes as 0, which disables
checkpoints), and the `_abort` flag. -/
structure ObjectWriterState where
  mtuSize : Nat
  prn : Nat
  abortRequested : Bool
deriving DecidableEq

/-- The constructor state of `DfuObjectWriter`: `_mtuSize = DEFAULT_MTU_SIZE`
(20), PRN unset, `_abort = false`. -/
def initialState : ObjectWriterState :=
  { mtuSize := 20, prn := 0, abortRequested := false }

/-- `abort()` (src/api/dfu/dfuObjectWriter.js): set the abort flag. No
operation of the class resets it. -/
def abort (s : ObjectWriterState) : ObjectWriterState :=
  { s with abortRequested := true }

/-- `setPrn(prn)` (src/api/dfu/dfuObjectWriter.js). -/
def setPrn (s : ObjectWriterState) (prn : Nat) : ObjectWriterState :=
  { s with prn := prn }

/-- `setMtuSize(mtuSize)` (src/api/dfu/dfuObjectWriter.js). -/
def setMtuSize (s : ObjectWriterState) (mtuSize : Nat) : ObjectWriterState :=
  { s with mtuSize := mtuSize }

/-- The notification queue's listening session events triggered by
`writeObject`: `startListening` and `stopListening`. -/
inductive SessionEvent where
  | startL
  | stopL
deriving DecidableEq

/-- `writeObject(data, offset, crc32)` (src/api/dfu/dfuObjectWriter.js), as a
run trace: split the data by the MTU size, create a packet writer seeded
with the given offset and CRC32 (`_createPacketWriter`), start the queue
listening, run the packet loop, and stop the queue listening on the
resolution path (`then`) as well as on the rejection path (`catch`). The
returned event list records the `startListening` / `stopListening` calls in
order; the queue's buffer starts empty because `stopListening` cleared it. -/
def writeObjectRun (ccId : Nat) (crcUpd : Nat → List Nat → Nat)
    (st : ObjectWriterState) (data : List Nat) (offset crc32 : Nat)
    (arrivals : Nat → Nat → List Notification) :
    List SessionEvent × WriteResult :=
  let packets := splitArray data st.mtuSize
  let w : PacketWriter := { offset := offset, crc32 := crc32, prn := st.prn, prnCount := 0 }
  match writePacketsLoop ccId crcUpd st.abortRequested arrivals packets
      { writer := w, buf := [], valIdx := 0, written := [] } with
  | .ok s => ([.startL, .stopL], .ok s)
  | .err e s => ([.startL, .stopL], .err e s)

/-- The value `writeObject` settles with: on resolution, the packet writer's
final `{offset, crc32}` (`getOffset()` / `getCrc32()`); on rejection, the
error that was rethrown. -/
def writeObject (ccId : Nat) (crcUpd : Nat → List Nat → Nat)
    (st : ObjectWriterState) (data : List Nat) (offset crc32 : Nat)
    (arrivals : Nat → Nat → List Notification) :
    Except ErrorCode ProgressInfo :=
  match (writeObjectRun ccId crcUpd st data offset crc32 arrivals).2 with
  | .ok s => .ok ⟨s.writer.offset, s.writer.crc32⟩
  | .err e _ => .error e

/-! ## Basic lemmas about the notification queue -/

/-- A notification from a foreign characteristic, or one whose first payload
byte is not the response marker, is parsed to `skip`. -/
theorem parseNotification_skip (ccId opCode : Nat) (n : Notification)
    (h : n.instanceId ≠ ccId ∨ n.value[0]? ≠ some ControlPointOpcode.RESPONSE) :
    parseNotification ccId opCode n = .skip := by
  unfold parseNotification
  rcases h with h | h
  · simp [h]
  · by_cases hc : n.instanceId = ccId
    · simp [hc, h]
    · simp [hc]

/-- One-step unfolding of `findNotification`. -/
theorem findNotification_cons (ccId opCode : Nat) (n : Notification)
    (rest : List Notification) :
    findNotification ccId opCode (n :: rest) =
      match parseNotification ccId opCode n with
      | .skip => findNotification ccId opCode rest
      | .matched v => .found v rest
      | .failed e => .failed e rest := rfl

/-- Skipped notifications at the head of the buffer do not affect the scan. -/
theorem findNotification_skipAll (ccId opCode : Nat) (pre l : List Notification)
    (h : ∀ m ∈ pre, parseNotification ccId opCode m = .skip) :
    findNotification ccId opCode (pre ++ l) = findNotification ccId opCode l := by
  induction pre with
  | nil => rfl
  | cons m pre ih =>
    have hm : parseNotification ccId opCode m = .skip := h m (List.mem_cons_self m pre)
    rw [List.cons_append, findNotification_cons, hm]
    exact ih fun x hx => h x (List.mem_cons_of_mem m hx)

/-- A buffer whose notifications are all skipped is scanned to exhaustion. -/
theorem findNotification_exhausted (ccId opCode : Nat) (l : List Notification)
    (h : ∀ m ∈ l, parseNotification ccId opCode m = .skip) :
    findNotification ccId opCode l = .exhausted := by
  induction l with
  | nil => rfl
  | cons m rest ih =>
    rw [findNotification_cons, h m (List.mem_cons_self m rest)]
    exact ih fun x hx => h x (List.mem_cons_of_mem m hx)

/-- One-step unfolding of `pollLoop` with fuel left. -/
theorem pollLoop_succ (ccId opCode : Nat) (arrivals : Nat → List Notification)
    (k fuel : Nat) :
    pollLoop ccId opCode arrivals k (fuel + 1) =
      match findNotification ccId opCode (arrivals k) with
      | .found v rest => .ok (v, rest)
      | .failed e _ => .error e
      | .exhausted => pollLoop ccId opCode arrivals (k + 1) fuel := rfl

/-- A scan that finds a match settles the poll loop at once. -/
theorem pollLoop_found {ccId opCode : Nat} {arrivals : Nat → List Notification}
    {k : Nat} {v : List Nat} {rest : List Notification}
    (h : findNotification ccId opCode (arrivals k) = .found v rest)
    {fuel : Nat} (hf : fuel ≠ 0) :
    pollLoop ccId opCode arrivals k fuel = .ok (v, rest) := by
  cases fuel with
  | zero => exact absurd rfl hf
  | succ f => rw [pollLoop_succ, h]

/-- A scan that throws settles the poll loop at once with that error. -/
theorem pollLoop_failed {ccId opCode : Nat} {arrivals : Nat → List Notification}
    {k : Nat} {e : ErrorCode} {rest : List Notification}
    (h : findNotification ccId opCode (arrivals k) = .failed e rest)
    {fuel : Nat} (hf : fuel ≠ 0) :
    pollLoop ccId opCode arrivals k fuel = .error e := by
  cases fuel with
  | zero => exact absurd rfl hf
  | succ f => rw [pollLoop_succ, h]

/-- If every tick exhausts the buffer, the poll loop runs out of fuel and the
deadline wins the race. -/
theorem pollLoop_timeout (ccId opCode : Nat) (arrivals : Nat → List Notification)
    (h : ∀ k, findNotification ccId opCode (arrivals k) = .exhausted) :
    ∀ fuel k, pollLoop ccId opCode arrivals k fuel = .error .notificationTimeout := by
  intro fuel
  induction fuel with
  | zero => intro k; rfl
  | succ f ih =>
    intro k
    rw [pollLoop_succ, h k]
    exact ih (k + 1)

/-- A match already buffered at call time settles `readNext` at tick 0. -/
theorem readNext_found {ccId opCode : Nat} {buf : List Notification}
    {v : List Nat} {rest : List Notification}
    (arrivals : Nat → List Notification)
    (h : findNotification ccId opCode buf = .found v rest) :
    readNext ccId opCode buf arrivals = .ok (v, rest) := by
  unfold readNext
  exact pollLoop_found (k := 0) h (by decide)

/-- A throw from the scan of the call-time buffer settles `readNext` at
tick 0 with that error. -/
theorem readNext_failed {ccId opCode : Nat} {buf : List Notification}
    {e : ErrorCode} {rest : List Notification}
    (arrivals : Nat → List Notification)
    (h : findNotification ccId opCode buf = .failed e rest) :
    readNext ccId opCode buf arrivals = .error e := by
  unfold readNext
  exact pollLoop_failed (k := 0) h (by decide)

/-! ## Claims about the notification queue -/

/-- Claim C1: for every sequence of buffered notifications, `readNext(opCode)`
returns the first notification in arrival order that is from the control-point
characteristic with payload `[response marker, opCode, success, ...]`,
consuming without error every preceding notification that is from a different
channel or lacks the response marker: the scan yields exactly that payload
with the following notifications left buffered, and `readNext` resolves with
it. -/
theorem C1_readNext_first_match (ccId opCode : Nat) (pre post : List Notification)
    (n : Notification) (arrivals : Nat → List Notification)
    (hpre : ∀ m ∈ pre,
      m.instanceId ≠ ccId ∨ m.value[0]? ≠ some ControlPointOpcode.RESPONSE)
    (hch : n.instanceId = ccId)
    (hmark : n.value[0]? = some ControlPointOpcode.RESPONSE)
    (hop : n.value[1]? = some opCode)
    (hsucc : n.value[2]? = some ResultCode.SUCCESS) :
    findNotification ccId opCode (pre ++ n :: post) = .found n.value post ∧
    readNext ccId opCode (pre ++ n :: post) arrivals = .ok (n.value, post) := by
  have hn : parseNotification ccId opCode n = .matched n.value := by
    unfold parseNotification
    simp [hch, hmark, hop, hsucc]
  have hfind : findNotification ccId opCode (pre ++ n :: post) = .found n.value post := by
    rw [findNotification_skipAll ccId opCode pre _
      (fun m hm => parseNotification_skip ccId opCode m (hpre m hm))]
    rw [findNotification_cons, hn]
  exact ⟨hfind, readNext_found arrivals hfind⟩

/-- Claim C4: if only foreign or marker-less notifications arrive — at call
time and at every later poll tick — `readNext` fails with
`NotificationTimeout` and with no other error, after the full fixed ceiling:
20 s total, re-polling every 20 ms, however many such notifications were
discarded meanwhile. -/
theorem C4_timeout (ccId opCode : Nat) (buf : List Notification)
    (arrivals : Nat → List Notification)
    (hbuf : ∀ m ∈ buf,
      m.instanceId ≠ ccId ∨ m.value[0]? ≠ some ControlPointOpcode.RESPONSE)
    (harr : ∀ k, ∀ m ∈ arrivals k,
      m.instanceId ≠ ccId ∨ m.value[0]? ≠ some ControlPointOpcode.RESPONSE) :
    timeoutMs = 20000 ∧ pollIntervalMs = 20 ∧
    pollIntervalMs * pollCount = timeoutMs ∧
    readNext ccId opCode buf arrivals = .error .notificationTimeout := by
  refine ⟨rfl, rfl, rfl, ?_⟩
  have hall : ∀ k, findNotification ccId opCode (withBuf buf arrivals k) = .exhausted := by
    intro k
    refine findNotification_exhausted ccId opCode _ ?_
    intro m hm
    unfold withBuf at hm
    by_cases h0 : k = 0
    · rw [if_pos h0] at hm
      exact parseNotification_skip ccId opCode m (hbuf m hm)
    · rw [if_neg h0] at hm
      exact parseNotification_skip ccId opCode m (harr k m hm)
  exact pollLoop_timeout ccId opCode _ hall pollCount 0

/-- Claim C5: a buffered control-channel response with the response marker and
the requested opcode but a non-success result byte makes `readNext` fail at
once with `CommandError` carrying that byte: the scan throws leaving the
following notifications unconsumed, and `readNext` rejects with the error for
every possible stream of further arrivals (no waiting). -/
theorem C5_commandError (ccId opCode c : Nat) (pre post : List Notification)
    (n : Notification) (arrivals : Nat → List Notification)
    (hpre : ∀ m ∈ pre,
      m.instanceId ≠ ccId ∨ m.value[0]? ≠ some ControlPointOpcode.RESPONSE)
    (hch : n.instanceId = ccId)
    (hmark : n.value[0]? = some ControlPointOpcode.RESPONSE)
    (hop : n.value[1]? = some opCode)
    (hres : n.value[2]? = some c)
    (hne : c ≠ ResultCode.SUCCESS) :
    findNotification ccId opCode (pre ++ n :: post) =
      .failed (.commandError (some c)) post ∧
    readNext ccId opCode (pre ++ n :: post) arrivals =
      .error (.commandError (some c)) := by
  have hn : parseNotification ccId opCode n = .failed (.commandError (some c)) := by
    unfold parseNotification
    simp [hch, hmark, hop, hres, hne]
  have hfind : findNotification ccId opCode (pre ++ n :: post) =
      .failed (.commandError (some c)) post := by
    rw [findNotification_skipAll ccId opCode pre _
      (fun m hm => parseNotification_skip ccId opCode m (hpre m hm))]
    rw [findNotification_cons, hn]
  exact ⟨hfind, readNext_failed arrivals hfind⟩

/-- Claim C6: a buffered control-channel response with the response marker but
an opcode byte different from the requested one makes `readNext` fail at once
with `UnexpectedNotification` — a hard failure, not a discard: the scan throws
leaving the following notifications unconsumed, and `readNext` rejects with
the error for every possible stream of further arrivals (no waiting). -/
theorem C6_unexpected (ccId opCode b : Nat) (pre post : List Notification)
    (n : Notification) (arrivals : Nat → List Notification)
    (hpre : ∀ m ∈ pre,
      m.instanceId ≠ ccId ∨ m.value[0]? ≠ some ControlPointOpcode.RESPONSE)
    (hch : n.instanceId = ccId)
    (hmark : n.value[0]? = some ControlPointOpcode.RESPONSE)
    (hop : n.value[1]? = some b)
    (hne : b ≠ opCode) :
    findNotification ccId opCode (pre ++ n :: post) =
      .failed (.unexpectedNotification (some b)) post ∧
    readNext ccId opCode (pre ++ n :: post) arrivals =
      .error (.unexpectedNotification (some b)) := by
  have hn : parseNotification ccId opCode n =
      .failed (.unexpectedNotification (some b)) := by
    unfold parseNotification
    simp [hch, hmark, hop, hne]
  have hfind : findNotification ccId opCode (pre ++ n :: post) =
      .failed (.unexpectedNotification (some b)) post := by
    rw [findNotification_skipAll ccId opCode pre _
      (fun m hm => parseNotification_skip ccId opCode m (hpre m hm))]
    rw [findNotification_cons, hn]
  exact ⟨hfind, readNext_failed arrivals hfind⟩

/-! ## Basic lemmas about segmentation -/

/-- `splitArrayGo` does not depend on the fuel once it covers the list
length. -/
theorem splitArrayGo_congr (s : Nat) :
    ∀ f g (data : List Nat), data.length ≤ f → data.length ≤ g →
      splitArrayGo f data (s + 1) = splitArrayGo g data (s + 1) := by
  intro f
  induction f with
  | zero =>
    intro g data hf _
    have hd : data = [] := List.eq_nil_of_length_eq_zero (Nat.le_zero.mp hf)
    subst hd
    cases g <;> rfl
  | succ f ih =>
    intro g data hf hg
    cases data with
    | nil => cases g <;> rfl
    | cons d ds =>
      cases g with
      | zero => simp at hg
      | succ g' =>
        show (d :: ds).take (s + 1) :: splitArrayGo f ((d :: ds).drop (s + 1)) (s + 1) =
          (d :: ds).take (s + 1) :: splitArrayGo g' ((d :: ds).drop (s + 1)) (s + 1)
        congr 1
        apply ih
        · simp only [List.length_drop, List.length_cons] at *
          omega
        · simp only [List.length_drop, List.length_cons] at *
          omega

/-- `splitArray` of the empty list. -/
theorem splitArray_nil (s : Nat) : splitArray [] s = [] := rfl

/-- `splitArray` with chunk size 0. -/
theorem splitArray_zero (data : List Nat) : splitArray data 0 = [] := by
  cases data <;> rfl

/-- One-step unfolding of `splitArray` on a nonempty list. -/
theorem splitArray_cons (d : Nat) (ds : List Nat) (s : Nat) :
    splitArray (d :: ds) (s + 1) =
      (d :: ds).take (s + 1) :: splitArray ((d :: ds).drop (s + 1)) (s + 1) := by
  show splitArrayGo (ds.length + 1) (d :: ds) (s + 1) = _
  rw [show splitArrayGo (ds.length + 1) (d :: ds) (s + 1) =
      (d :: ds).take (s + 1) :: splitArrayGo ds.length ((d :: ds).drop (s + 1)) (s + 1)
    from rfl]
  congr 1
  apply splitArrayGo_congr
  · simp only [List.length_drop, List.length_cons]
    omega
  · exact Nat.le_refl _

/-- If the fuel covers a nonempty list, the tail's drop fits in one less
fuel. -/
theorem drop_length_le {d : Nat} {ds : List Nat} {f s : Nat}
    (hf : (d :: ds).length ≤ f + 1) : ((d :: ds).drop (s + 1)).length ≤ f := by
  simp only [List.length_drop, List.length_cons] at hf ⊢
  omega

/-- Concatenating the chunks gives back the original bytes in order. -/
theorem splitArray_flatten (s : Nat) (data : List Nat) :
    (splitArray data (s + 1)).flatten = data := by
  suffices h : ∀ f (data : List Nat), data.length ≤ f →
      (splitArray data (s + 1)).flatten = data from
    h data.length data (Nat.le_refl _)
  intro f
  induction f with
  | zero =>
    intro data hf
    have hd : data = [] := List.eq_nil_of_length_eq_zero (Nat.le_zero.mp hf)
    subst hd
    rfl
  | succ f ih =>
    intro data hf
    cases data with
    | nil => rfl
    | cons d ds =>
      rw [splitArray_cons, List.flatten_cons]
      rw [ih ((d :: ds).drop (s + 1)) (drop_length_le hf)]
      exact List.take_append_drop (s + 1) (d :: ds)

/-- There are exactly `ceil(length / chunkSize)` chunks. -/
theorem splitArray_length (s : Nat) (data : List Nat) :
    (splitArray data (s + 1)).length = (data.length + s) / (s + 1) := by
  suffices h : ∀ f (data : List Nat), data.length ≤ f →
      (splitArray data (s + 1)).length = (data.length + s) / (s + 1) from
    h data.length data (Nat.le_refl _)
  intro f
  induction f with
  | zero =>
    intro data hf
    have hd : data = [] := List.eq_nil_of_length_eq_zero (Nat.le_zero.mp hf)
    subst hd
    rw [splitArray_nil]
    simp only [List.length_nil, Nat.zero_add]
    rw [Nat.div_eq_of_lt (by omega)]
  | succ f ih =>
    intro data hf
    cases data with
    | nil =>
      rw [splitArray_nil]
      simp only [List.length_nil, Nat.zero_add]
      rw [Nat.div_eq_of_lt (by omega)]
    | cons d ds =>
      rw [splitArray_cons, List.length_cons]
      rw [ih ((d :: ds).drop (s + 1)) (drop_length_le hf)]
      have hdl : ((d :: ds).drop (s + 1)).length = ds.length - s := by
        simp only [List.length_drop, List.length_cons]
        omega
      rw [hdl, List.length_cons]
      by_cases hcase : s ≤ ds.length
      · rw [Nat.sub_add_cancel hcase]
        have he : ds.length + 1 + s = ds.length + (s + 1) := by omega
        rw [he, Nat.add_div_right _ (Nat.succ_pos s)]
      · have h1 : ds.length - s = 0 := by omega
        rw [h1, Nat.zero_add, Nat.div_eq_of_lt (by omega)]
        have h2 : (ds.length + 1 + s) / (s + 1) = 1 :=
          Nat.div_eq_of_lt_le (by omega) (by omega)
        rw [h2]

/-- Every chunk is at most `chunkSize` bytes long. -/
theorem splitArray_le (s : Nat) (data : List Nat) :
    ∀ p ∈ splitArray data (s + 1), p.length ≤ s + 1 := by
  suffices h : ∀ f (data : List Nat), data.length ≤ f →
      ∀ p ∈ splitArray data (s + 1), p.length ≤ s + 1 from
    h data.length data (Nat.le_refl _)
  intro f
  induction f with
  | zero =>
    intro data hf p hp
    have hd : data = [] := List.eq_nil_of_length_eq_zero (Nat.le_zero.mp hf)
    subst hd
    cases hp
  | succ f ih =>
    intro data hf p hp
    cases data with
    | nil => cases hp
    | cons d ds =>
      rw [splitArray_cons] at hp
      rcases List.mem_cons.mp hp with h | h
      · subst h
        exact List.length_take_le _ _
      · exact ih ((d :: ds).drop (s + 1)) (drop_length_le hf) p h

/-! ## Basic lemmas about the packet loop -/

/-- One-step unfolding of the packet loop. -/
theorem writePacketsLoop_cons (ccId : Nat) (crcUpd : Nat → List Nat → Nat)
    (ab : Bool) (arrivals : Nat → Nat → List Notification)
    (p : List Nat) (ps : List (List Nat)) (s : LoopState) :
    writePacketsLoop ccId crcUpd ab arrivals (p :: ps) s =
      if ab then
        .err .aborted s
      else
        match s.writer.writePacket crcUpd p with
        | (w, none) =>
          writePacketsLoop ccId crcUpd ab arrivals ps
            { s with writer := w, written := s.written ++ [p] }
        | (w, some prog) =>
          match validateProgress ccId prog s.buf (arrivals s.valIdx) with
          | .error e => .err e { s with writer := w, written := s.written ++ [p] }
          | .ok rest =>
            writePacketsLoop ccId crcUpd ab arrivals ps
              { writer := w, buf := rest, valIdx := s.valIdx + 1,
                written := s.written ++ [p] } := rfl

/-- With `prn = 0` the packet writer never reports a checkpoint: it just
accumulates offset, CRC32 and the cadence counter. -/
theorem writePacket_prn_zero (crcUpd : Nat → List Nat → Nat)
    (w : PacketWriter) (p : List Nat) (h : w.prn = 0) :
    w.writePacket crcUpd p =
      ({ w with offset := w.offset + p.length, crc32 := crcUpd w.crc32 p, prnCount := w.prnCount + 1 }, none) := by
  unfold PacketWriter.writePacket
  rw [if_neg]
  intro hc
  exact hc.1 h

/-- The packets handed to the packet writer are always an in-order prefix of
the packet list, and all of it when the loop resolves. -/
theorem writePacketsLoop_written (ccId : Nat) (crcUpd : Nat → List Nat → Nat)
    (ab : Bool) (arrivals : Nat → Nat → List Notification) :
    ∀ (packets : List (List Nat)) (s : LoopState),
      (∃ k, (writePacketsLoop ccId crcUpd ab arrivals packets s).state.written =
        s.written ++ packets.take k) ∧
      ((writePacketsLoop ccId crcUpd ab arrivals packets s).isOk = true →
        (writePacketsLoop ccId crcUpd ab arrivals packets s).state.written =
          s.written ++ packets) := by
  intro packets
  induction packets with
  | nil =>
    intro s
    exact ⟨⟨0, by simp [writePacketsLoop, WriteResult.state]⟩,
      fun _ => by simp [writePacketsLoop, WriteResult.state]⟩
  | cons p ps ih =>
    intro s
    rw [writePacketsLoop_cons]
    split
    · refine ⟨⟨0, by simp [WriteResult.state]⟩, fun h => ?_⟩
      simp [WriteResult.isOk] at h
    · split
      · rename_i w heq
        have h := ih { s with writer := w, written := s.written ++ [p] }
        constructor
        · obtain ⟨k, hk⟩ := h.1
          exact ⟨k + 1, by rw [hk]; simp⟩
        · intro hok
          rw [h.2 hok]
          simp
      · rename_i w prog heq
        split
        · refine ⟨⟨1, by simp [WriteResult.state]⟩, fun h => ?_⟩
          simp [WriteResult.isOk] at h
        · rename_i rest hv
          have h := ih { writer := w, buf := rest, valIdx := s.valIdx + 1, written := s.written ++ [p] }
          constructor
          · obtain ⟨k, hk⟩ := h.1
            exact ⟨k + 1, by rw [hk]; simp⟩
          · intro hok
            rw [h.2 hok]
            simp

/-- With PRN disabled and no abort, the loop writes every packet and
accumulates the writer state across all of them. -/
theorem writePacketsLoop_prn_zero (ccId : Nat) (crcUpd : Nat → List Nat → Nat)
    (arrivals : Nat → Nat → List Notification) :
    ∀ (packets : List (List Nat)) (s : LoopState), s.writer.prn = 0 →
      writePacketsLoop ccId crcUpd false arrivals packets s =
        .ok { s with writer := { s.writer with offset := s.writer.offset + (packets.map List.length).sum, crc32 := packets.foldl crcUpd s.writer.crc32, prnCount := s.writer.prnCount + packets.length }, written := s.written ++ packets } := by
  intro packets
  induction packets with
  | nil =>
    intro s h
    simp [writePacketsLoop]
  | cons p ps ih =>
    intro s h
    rw [writePacketsLoop_cons, if_neg Bool.false_ne_true]
    split
    · rename_i w heq
      rw [writePacket_prn_zero crcUpd s.writer p h] at heq
      have hw : w = { s.writer with offset := s.writer.offset + p.length, crc32 := crcUpd s.writer.crc32 p, prnCount := s.writer.prnCount + 1 } := by
        have := congrArg Prod.fst heq
        simpa using this.symm
      subst hw
      rw [ih { s with writer := { s.writer with offset := s.writer.offset + p.length, crc32 := crcUpd s.writer.crc32 p, prnCount := s.writer.prnCount + 1 }, written := s.written ++ [p] } h]
      simp [Nat.add_assoc, Nat.add_comm 1 ps.length]
    · rename_i w prog heq
      rw [writePacket_prn_zero crcUpd s.writer p h] at heq
      exact absurd (congrArg Prod.snd heq) (by simp)

/-- The second component of a `writeObjectRun` is exactly the packet loop run
on the segmented data, from a packet writer seeded with the given offset and
CRC32 and an empty queue buffer. -/
theorem writeObjectRun_snd (ccId : Nat) (crcUpd : Nat → List Nat → Nat)
    (st : ObjectWriterState) (data : List Nat) (offset crc32 : Nat)
    (arrivals : Nat → Nat → List Notification) :
    (writeObjectRun ccId crcUpd st data offset crc32 arrivals).2 =
      writePacketsLoop ccId crcUpd st.abortRequested arrivals
        (splitArray data st.mtuSize)
        { writer := { offset := offset, crc32 := crc32, prn := st.prn, prnCount := 0 }, buf := [], valIdx := 0, written := [] } := by
  unfold writeObjectRun
  cases h : writePacketsLoop ccId crcUpd st.abortRequested arrivals
      (splitArray data st.mtuSize)
      { writer := { offset := offset, crc32 := crc32, prn := st.prn, prnCount := 0 }, buf := [], valIdx := 0, written := [] } <;> simp [h]

/-- When `readNext` resolves, `validateProgress` reduces to the two
validation checks on the returned payload. -/
theorem validateProgress_eq (ccId : Nat) (prog : ProgressInfo)
    (buf : List Notification) (arr : Nat → List Notification)
    (v : List Nat) (rest : List Notification)
    (hread : readNext ccId ControlPointOpcode.CALCULATE_CRC buf arr = .ok (v, rest)) :
    validateProgress ccId prog buf arr =
      match validateOffset v prog.offset with
      | .error e => .error e
      | .ok _ =>
        match validateCrc32 v prog.crc32 with
        | .error e => .error e
        | .ok _ => .ok rest := by
  unfold validateProgress
  rw [hread]

/-! ## Claims about the object transfer orchestrator -/

/-- Claim C2: `writeObject` on data of length `L` with a positive MTU `M`
segments the data into exactly `ceil(L / M)` packets, each at most `M` bytes,
whose in-order concatenation equals the data; and the loop hands the packets
to the packet writer strictly sequentially in that order — the log of handed
packets is always an in-order prefix of the segmentation, and is the whole
segmentation whenever the run resolves. -/
theorem C2_segmentation (M : Nat) (hM : 0 < M) (data : List Nat) (ccId : Nat)
    (crcUpd : Nat → List Nat → Nat) (st : ObjectWriterState) (offset crc32 : Nat)
    (arrivals : Nat → Nat → List Notification) (hmtu : st.mtuSize = M) :
    (splitArray data M).length = (data.length + M - 1) / M ∧
    (∀ p ∈ splitArray data M, p.length ≤ M) ∧
    (splitArray data M).flatten = data ∧
    (∃ k, (writeObjectRun ccId crcUpd st data offset crc32 arrivals).2.state.written = (splitArray data M).take k) ∧
    ((writeObjectRun ccId crcUpd st data offset crc32 arrivals).2.isOk = true →
      (writeObjectRun ccId crcUpd st data offset crc32 arrivals).2.state.written = splitArray data M) := by
  obtain ⟨m, rfl⟩ : ∃ m, M = m + 1 := ⟨M - 1, by omega⟩
  refine ⟨?_, splitArray_le m data, splitArray_flatten m data, ?_, ?_⟩
  · rw [splitArray_length m data]
    have harith : data.length + (m + 1) - 1 = data.length + m := by omega
    rw [harith]
  · rw [writeObjectRun_snd, hmtu]
    obtain ⟨k, hk⟩ := (writePacketsLoop_written ccId crcUpd st.abortRequested arrivals (splitArray data (m + 1)) { writer := { offset := offset, crc32 := crc32, prn := st.prn, prnCount := 0 }, buf := [], valIdx := 0, written := [] }).1
    refine ⟨k, ?_⟩
    rw [hk]
    simp
  · intro hok
    rw [writeObjectRun_snd, hmtu] at hok ⊢
    rw [(writePacketsLoop_written ccId crcUpd st.abortRequested arrivals (splitArray data (m + 1)) { writer := { offset := offset, crc32 := crc32, prn := st.prn, prnCount := 0 }, buf := [], valIdx := 0, written := [] }).2 hok]
    simp

/-- Claim C3: at a reported checkpoint the orchestrator reads the next
`CALCULATE_CRC` response; the device offset is decoded from payload bytes
`[3..7)` and the device CRC32 from bytes `[7..11)` as 32-bit little-endian
integers; an offset mismatch fails the validation with `InvalidOffset`, a
CRC32 mismatch (with the offset matching) fails it with `InvalidCrc`; and a
failed validation ends the packet loop with that error, so none of the
remaining packets is handed to the packet writer. -/
theorem C3_checkpoint_validation (ccId : Nat) (prog : ProgressInfo)
    (buf : List Notification) (arr : Nat → List Notification)
    (v : List Nat) (rest : List Notification)
    (hread : readNext ccId ControlPointOpcode.CALCULATE_CRC buf arr = .ok (v, rest)) :
    (arrayToInt ((v.drop 3).take 4) ≠ prog.offset →
      validateProgress ccId prog buf arr = .error (.invalidOffset (arrayToInt ((v.drop 3).take 4)) prog.offset)) ∧
    (arrayToInt ((v.drop 3).take 4) = prog.offset →
      arrayToInt ((v.drop 7).take 4) ≠ prog.crc32 →
      validateProgress ccId prog buf arr = .error (.invalidCrc (arrayToInt ((v.drop 7).take 4)) prog.crc32)) ∧
    (∀ (crcUpd : Nat → List Nat → Nat) (arrivals : Nat → Nat → List Notification)
      (p : List Nat) (ps : List (List Nat)) (s : LoopState) (w : PacketWriter) (e : ErrorCode),
      s.writer.writePacket crcUpd p = (w, some prog) →
      validateProgress ccId prog s.buf (arrivals s.valIdx) = .error e →
      writePacketsLoop ccId crcUpd false arrivals (p :: ps) s = .err e { s with writer := w, written := s.written ++ [p] }) := by
  refine ⟨?_, ?_, ?_⟩
  · intro hne
    have hvo : validateOffset v prog.offset = .error (.invalidOffset (arrayToInt ((v.drop 3).take 4)) prog.offset) := by
      unfold validateOffset
      rw [if_pos hne]
    rw [validateProgress_eq ccId prog buf arr v rest hread, hvo]
  · intro heq hne
    have hvo : validateOffset v prog.offset = .ok () := by
      unfold validateOffset
      rw [if_neg fun hc => hc heq]
    have hvc : validateCrc32 v prog.crc32 = .error (.invalidCrc (arrayToInt ((v.drop 7).take 4)) prog.crc32) := by
      unfold validateCrc32
      rw [if_pos hne]
    rw [validateProgress_eq ccId prog buf arr v rest hread, hvo, hvc]
  · intro crcUpd arrivals p ps s w e hw hv
    rw [writePacketsLoop_cons, if_neg Bool.false_ne_true]
    split
    · rename_i w' heq
      rw [hw] at heq
      exact absurd (congrArg Prod.snd heq) (by simp)
    · rename_i w' prog' heq
      rw [hw] at heq
      injection heq with h1 h2
      injection h2 with h2
      subst h1
      subst h2
      split
      · rename_i e' hv'
        rw [hv] at hv'
        injection hv' with h3
        subst h3
        rfl
      · rename_i rest' hv'
        rw [hv] at hv'
        exact Except.noConfusion hv'

/-- Claim C7 (amended): once `abort()` has been called, any `writeObject`
call whose data segments into at least one packet fails with `Aborted` with
zero packets handed to the packet writer; since nothing resets the flag,
this holds for the first call after the abort and for every later call on
the same instance. -/
theorem C7_abort_flag (ccId : Nat) (crcUpd : Nat → List Nat → Nat)
    (st : ObjectWriterState) (data : List Nat) (offset crc32 : Nat)
    (arrivals : Nat → Nat → List Notification)
    (hne : splitArray data (abort st).mtuSize ≠ []) :
    writeObject ccId crcUpd (abort st) data offset crc32 arrivals = .error .aborted ∧
    (writeObjectRun ccId crcUpd (abort st) data offset crc32 arrivals).2.state.written = [] := by
  obtain ⟨p, ps, hp⟩ := List.exists_cons_of_ne_nil hne
  have hab : (abort st).abortRequested = true := rfl
  have hrun : (writeObjectRun ccId crcUpd (abort st) data offset crc32 arrivals).2 = .err .aborted { writer := { offset := offset, crc32 := crc32, prn := (abort st).prn, prnCount := 0 }, buf := [], valIdx := 0, written := [] } := by
    rw [writeObjectRun_snd, hp, hab, writePacketsLoop_cons, if_pos rfl]
  constructor
  · unfold writeObject
    rw [hrun]
  · rw [hrun]
    rfl

/-- Claim C7 counterexample: the claim fails on empty data. With the abort
flag set, `writeObject` on `[]` resolves successfully instead of failing
with `Aborted`: `splitArray` yields zero packets, so the abort check at the
head of each packet iteration never runs. -/
theorem C7_counterexample :
    (abort initialState).abortRequested = true ∧
    writeObject 0 (fun c _ => c) (abort initialState) [] 0 0 (fun _ _ => []) = .ok ⟨0, 0⟩ ∧
    writeObject 0 (fun c _ => c) (abort initialState) [] 0 0 (fun _ _ => []) ≠ .error .aborted := by
  refine ⟨rfl, by decide, by decide⟩

/-- Claim C8: every `writeObject` run emits exactly one `startListening`
followed by exactly one `stopListening`, whatever the outcome — resolution
(the `then` branch) or rejection with any error kind (the `catch` branch). -/
theorem C8_listener_cleanup (ccId : Nat) (crcUpd : Nat → List Nat → Nat)
    (st : ObjectWriterState) (data : List Nat) (offset crc32 : Nat)
    (arrivals : Nat → Nat → List Notification) :
    (writeObjectRun ccId crcUpd st data offset crc32 arrivals).1 = [.startL, .stopL] := by
  unfold writeObjectRun
  cases h : writePacketsLoop ccId crcUpd st.abortRequested arrivals (splitArray data st.mtuSize) { writer := { offset := offset, crc32 := crc32, prn := st.prn, prnCount := 0 }, buf := [], valIdx := 0, written := [] } <;> simp [h]

/-- Claim C9: the packet writer's running state is seeded with exactly the
given `(offset, crc32)`, and on resolution `writeObject` resolves with the
packet writer's final `{offset, crc32}`. In particular, with PRN disabled
and no abort, a transfer resumed from `(offset, crc32)` resolves with offset
`offset + data.length` and the CRC32 folded from `crc32` over the packets —
cumulative from the resumed point, not from `(0, 0)`. -/
theorem C9_resume (ccId : Nat) (crcUpd : Nat → List Nat → Nat) (mtu : Nat)
    (hmtu : 0 < mtu) (data : List Nat) (offset crc32 : Nat)
    (arrivals : Nat → Nat → List Notification) :
    (∀ (st : ObjectWriterState) (d2 : List Nat) (o2 c2 : Nat)
      (a2 : Nat → Nat → List Notification) (s : LoopState),
      (writeObjectRun ccId crcUpd st d2 o2 c2 a2).2 = .ok s →
      writeObject ccId crcUpd st d2 o2 c2 a2 = .ok ⟨s.writer.offset, s.writer.crc32⟩) ∧
    writeObject ccId crcUpd ⟨mtu, 0, false⟩ data offset crc32 arrivals =
      .ok ⟨offset + data.length, (splitArray data mtu).foldl crcUpd crc32⟩ := by
  constructor
  · intro st d2 o2 c2 a2 s hok
    unfold writeObject
    rw [hok]
  · obtain ⟨m, rfl⟩ : ∃ m, mtu = m + 1 := ⟨mtu - 1, by omega⟩
    unfold writeObject
    rw [writeObjectRun_snd]
    have e1 : (ObjectWriterState.mk (m + 1) 0 false).abortRequested = false := rfl
    have e2 : (ObjectWriterState.mk (m + 1) 0 false).mtuSize = m + 1 := rfl
    have e3 : (ObjectWriterState.mk (m + 1) 0 false).prn = 0 := rfl
    rw [e1, e2, e3]
    rw [writePacketsLoop_prn_zero ccId crcUpd arrivals (splitArray data (m + 1)) { writer := { offset := offset, crc32 := crc32, prn := 0, prnCount := 0 }, buf := [], valIdx := 0, written := [] } rfl]
    have hsum : ((splitArray data (m + 1)).map List.length).sum = data.length := by
      rw [← List.length_flatten, splitArray_flatten]
    rw [hsum]

/-- Claim C10: when a checkpoint disagrees with the local expectation on both
the offset and the CRC32, the validation error is `InvalidOffset` and never
`InvalidCrc`: the offset is checked first and its failure short-circuits the
CRC32 check. -/
theorem C10_offset_validated_first (ccId : Nat) (prog : ProgressInfo)
    (buf : List Notification) (arr : Nat → List Notification)
    (v : List Nat) (rest : List Notification)
    (hread : readNext ccId ControlPointOpcode.CALCULATE_CRC buf arr = .ok (v, rest))
    (hoff : arrayToInt ((v.drop 3).take 4) ≠ prog.offset)
    (hcrc : arrayToInt ((v.drop 7).take 4) ≠ prog.crc32) :
    validateProgress ccId prog buf arr = .error (.invalidOffset (arrayToInt ((v.drop 3).take 4)) prog.offset) ∧
    ∀ g e, validateProgress ccId prog buf arr ≠ .error (.invalidCrc g e) := by
  have h1 : validateProgress ccId prog buf arr = .error (.invalidOffset (arrayToInt ((v.drop 3).take 4)) prog.offset) := by
    have hvo : validateOffset v prog.offset = .error (.invalidOffset (arrayToInt ((v.drop 3).take 4)) prog.offset) := by
      unfold validateOffset
      rw [if_pos hoff]
    rw [validateProgress_eq ccId prog buf arr v rest hread, hvo]
  refine ⟨h1, fun g e hce => ?_⟩
  rw [h1] at hce
  injection hce with h2
  exact ErrorCode.noConfusion h2

/-! ## Witnesses: the claim theorems at concrete inputs -/

/-- Witness for C1 at a concrete buffer: a foreign notification and a
marker-less control notification precede the matching response. -/
theorem C1_witness :
    (∀ m ∈ ([⟨8, [1]⟩, ⟨7, [0, 2, 1]⟩] : List Notification),
      m.instanceId ≠ 7 ∨ m.value[0]? ≠ some ControlPointOpcode.RESPONSE) ∧
    (findNotification 7 2 ([⟨8, [1]⟩, ⟨7, [0, 2, 1]⟩] ++ ⟨7, [96, 2, 1, 5]⟩ :: [⟨7, [9]⟩]) = .found [96, 2, 1, 5] [⟨7, [9]⟩] ∧
     readNext 7 2 ([⟨8, [1]⟩, ⟨7, [0, 2, 1]⟩] ++ ⟨7, [96, 2, 1, 5]⟩ :: [⟨7, [9]⟩]) (fun _ => []) = .ok ([96, 2, 1, 5], [⟨7, [9]⟩])) :=
  ⟨by decide, C1_readNext_first_match 7 2 [⟨8, [1]⟩, ⟨7, [0, 2, 1]⟩] [⟨7, [9]⟩] ⟨7, [96, 2, 1, 5]⟩ (fun _ => []) (by decide) rfl rfl rfl rfl⟩

/-- Witness for C4 at a concrete buffer of a foreign and a marker-less
notification and no later arrivals. -/
theorem C4_witness :
    (∀ m ∈ ([⟨8, [96, 2, 1]⟩, ⟨7, [5, 1]⟩] : List Notification),
      m.instanceId ≠ 7 ∨ m.value[0]? ≠ some ControlPointOpcode.RESPONSE) ∧
    (timeoutMs = 20000 ∧ pollIntervalMs = 20 ∧
     pollIntervalMs * pollCount = timeoutMs ∧
     readNext 7 2 [⟨8, [96, 2, 1]⟩, ⟨7, [5, 1]⟩] (fun _ => []) = .error .notificationTimeout) :=
  ⟨by decide, C4_timeout 7 2 [⟨8, [96, 2, 1]⟩, ⟨7, [5, 1]⟩] (fun _ => []) (by decide) (fun k m hm => absurd hm (List.not_mem_nil m))⟩

/-- Witness for C5 at a concrete buffer: one foreign notification precedes a
response to the requested opcode with result code 4. -/
theorem C5_witness :
    (∀ m ∈ ([⟨9, []⟩] : List Notification),
      m.instanceId ≠ 7 ∨ m.value[0]? ≠ some ControlPointOpcode.RESPONSE) ∧
    (4 : Nat) ≠ ResultCode.SUCCESS ∧
    (findNotification 7 2 ([⟨9, []⟩] ++ ⟨7, [96, 2, 4]⟩ :: []) = .failed (.commandError (some 4)) [] ∧
     readNext 7 2 ([⟨9, []⟩] ++ ⟨7, [96, 2, 4]⟩ :: []) (fun _ => []) = .error (.commandError (some 4))) :=
  ⟨by decide, by decide, C5_commandError 7 2 4 [⟨9, []⟩] [] ⟨7, [96, 2, 4]⟩ (fun _ => []) (by decide) rfl rfl rfl rfl (by decide)⟩

/-- Witness for C6 at a concrete buffer: a response with opcode 5 while
opcode 2 is awaited, with a further notification left buffered behind it. -/
theorem C6_witness :
    (5 : Nat) ≠ 2 ∧
    (findNotification 7 2 ([] ++ ⟨7, [96, 5, 1]⟩ :: [⟨7, [1]⟩]) = .failed (.unexpectedNotification (some 5)) [⟨7, [1]⟩] ∧
     readNext 7 2 ([] ++ ⟨7, [96, 5, 1]⟩ :: [⟨7, [1]⟩]) (fun _ => []) = .error (.unexpectedNotification (some 5))) :=
  ⟨by decide, C6_unexpected 7 2 5 [] [⟨7, [1]⟩] ⟨7, [96, 5, 1]⟩ (fun _ => []) (fun m hm => absurd hm (List.not_mem_nil m)) rfl rfl rfl (by decide)⟩

/-- Witness for C2 at MTU 2 over 5 bytes of data. -/
theorem C2_witness :
    (0 : Nat) < 2 ∧ (setMtuSize initialState 2).mtuSize = 2 ∧
    ((splitArray [1, 2, 3, 4, 5] 2).length = ([1, 2, 3, 4, 5].length + 2 - 1) / 2 ∧
     (∀ p ∈ splitArray [1, 2, 3, 4, 5] 2, p.length ≤ 2) ∧
     (splitArray [1, 2, 3, 4, 5] 2).flatten = [1, 2, 3, 4, 5] ∧
     (∃ k, (writeObjectRun 0 (fun c _ => c) (setMtuSize initialState 2) [1, 2, 3, 4, 5] 0 0 (fun _ _ => [])).2.state.written = (splitArray [1, 2, 3, 4, 5] 2).take k) ∧
     ((writeObjectRun 0 (fun c _ => c) (setMtuSize initialState 2) [1, 2, 3, 4, 5] 0 0 (fun _ _ => [])).2.isOk = true →
       (writeObjectRun 0 (fun c _ => c) (setMtuSize initialState 2) [1, 2, 3, 4, 5] 0 0 (fun _ _ => [])).2.state.written = splitArray [1, 2, 3, 4, 5] 2)) :=
  ⟨by decide, rfl, C2_segmentation 2 (by decide) [1, 2, 3, 4, 5] 0 (fun c _ => c) (setMtuSize initialState 2) 0 0 (fun _ _ => []) rfl⟩

/-- Witness for C3 at a concrete checkpoint response reporting offset 5 and
CRC32 9 against a local expectation of offset 6 and CRC32 9. -/
theorem C3_witness :
    readNext 0 ControlPointOpcode.CALCULATE_CRC [⟨0, [96, 3, 1, 5, 0, 0, 0, 9, 0, 0, 0]⟩] (fun _ => []) = .ok ([96, 3, 1, 5, 0, 0, 0, 9, 0, 0, 0], []) ∧
    ((arrayToInt (([96, 3, 1, 5, 0, 0, 0, 9, 0, 0, 0].drop 3).take 4) ≠ (⟨6, 9⟩ : ProgressInfo).offset →
      validateProgress 0 ⟨6, 9⟩ [⟨0, [96, 3, 1, 5, 0, 0, 0, 9, 0, 0, 0]⟩] (fun _ => []) = .error (.invalidOffset (arrayToInt (([96, 3, 1, 5, 0, 0, 0, 9, 0, 0, 0].drop 3).take 4)) (⟨6, 9⟩ : ProgressInfo).offset)) ∧
     (arrayToInt (([96, 3, 1, 5, 0, 0, 0, 9, 0, 0, 0].drop 3).take 4) = (⟨6, 9⟩ : ProgressInfo).offset →
      arrayToInt (([96, 3, 1, 5, 0, 0, 0, 9, 0, 0, 0].drop 7).take 4) ≠ (⟨6, 9⟩ : ProgressInfo).crc32 →
      validateProgress 0 ⟨6, 9⟩ [⟨0, [96, 3, 1, 5, 0, 0, 0, 9, 0, 0, 0]⟩] (fun _ => []) = .error (.invalidCrc (arrayToInt (([96, 3, 1, 5, 0, 0, 0, 9, 0, 0, 0].drop 7).take 4)) (⟨6, 9⟩ : ProgressInfo).crc32)) ∧
     (∀ (crcUpd : Nat → List Nat → Nat) (arrivals : Nat → Nat → List Notification)
       (p : List Nat) (ps : List (List Nat)) (s : LoopState) (w : PacketWriter) (e : ErrorCode),
       s.writer.writePacket crcUpd p = (w, some ⟨6, 9⟩) →
       validateProgress 0 ⟨6, 9⟩ s.buf (arrivals s.valIdx) = .error e →
       writePacketsLoop 0 crcUpd false arrivals (p :: ps) s = .err e { s with writer := w, written := s.written ++ [p] })) :=
  ⟨by decide, C3_checkpoint_validation 0 ⟨6, 9⟩ [⟨0, [96, 3, 1, 5, 0, 0, 0, 9, 0, 0, 0]⟩] (fun _ => []) [96, 3, 1, 5, 0, 0, 0, 9, 0, 0, 0] [] (by decide)⟩

/-- Witness for the amended C7 at the default configuration after an
`abort()`, over three bytes of data (one packet). -/
theorem C7_witness :
    splitArray [1, 2, 3] (abort initialState).mtuSize ≠ [] ∧
    (writeObject 0 (fun c _ => c) (abort initialState) [1, 2, 3] 0 0 (fun _ _ => []) = .error .aborted ∧
     (writeObjectRun 0 (fun c _ => c) (abort initialState) [1, 2, 3] 0 0 (fun _ _ => [])).2.state.written = []) :=
  ⟨by decide, C7_abort_flag 0 (fun c _ => c) initialState [1, 2, 3] 0 0 (fun _ _ => []) (by decide)⟩

/-- Witness for C9: resuming from offset 20 and CRC32 7 at MTU 2 over three
bytes of data. -/
theorem C9_witness :
    (0 : Nat) < 2 ∧
    ((∀ (st : ObjectWriterState) (d2 : List Nat) (o2 c2 : Nat)
       (a2 : Nat → Nat → List Notification) (s : LoopState),
       (writeObjectRun 0 (fun c p => c + p.length) st d2 o2 c2 a2).2 = .ok s →
       writeObject 0 (fun c p => c + p.length) st d2 o2 c2 a2 = .ok ⟨s.writer.offset, s.writer.crc32⟩) ∧
     writeObject 0 (fun c p => c + p.length) ⟨2, 0, false⟩ [1, 2, 3] 20 7 (fun _ _ => []) =
       .ok ⟨20 + [1, 2, 3].length, (splitArray [1, 2, 3] 2).foldl (fun c p => c + p.length) 7⟩) :=
  ⟨by decide, C9_resume 0 (fun c p => c + p.length) 2 (by decide) [1, 2, 3] 20 7 (fun _ _ => [])⟩

/-- Witness for C10 at a concrete checkpoint response reporting offset 7 and
CRC32 2 against a local expectation of offset 3 and CRC32 4 — both wrong. -/
theorem C10_witness :
    readNext 0 ControlPointOpcode.CALCULATE_CRC [⟨0, [96, 3, 1, 7, 0, 0, 0, 2, 0, 0, 0]⟩] (fun _ => []) = .ok ([96, 3, 1, 7, 0, 0, 0, 2, 0, 0, 0], []) ∧
    arrayToInt (([96, 3, 1, 7, 0, 0, 0, 2, 0, 0, 0].drop 3).take 4) ≠ (⟨3, 4⟩ : ProgressInfo).offset ∧
    arrayToInt (([96, 3, 1, 7, 0, 0, 0, 2, 0, 0, 0].drop 7).take 4) ≠ (⟨3, 4⟩ : ProgressInfo).crc32 ∧
    (validateProgress 0 ⟨3, 4⟩ [⟨0, [96, 3, 1, 7, 0, 0, 0, 2, 0, 0, 0]⟩] (fun _ => []) = .error (.invalidOffset (arrayToInt (([96, 3, 1, 7, 0, 0, 0, 2, 0, 0, 0].drop 3).take 4)) (⟨3, 4⟩ : ProgressInfo).offset) ∧
     ∀ g e, validateProgress 0 ⟨3, 4⟩ [⟨0, [96, 3, 1, 7, 0, 0, 0, 2, 0, 0, 0]⟩] (fun _ => []) ≠ .error (.invalidCrc g e)) :=
  ⟨by decide, by decide, by decide, C10_offset_validated_first 0 ⟨3, 4⟩ [⟨0, [96, 3, 1, 7, 0, 0, 0, 2, 0, 0, 0]⟩] (fun _ => []) [96, 3, 1, 7, 0, 0, 0, 2, 0, 0, 0] [] (by decide) (by decide) (by decide)⟩

end Dfu
